import Mathlib

/-!
Verification of the LMSTools server client (src/LMSTools/server.py and
src/LMSTools/utils.py) against its natural-language specification, via a
shallow embedding of the Python code in Lean.
-/

/-- JSON values as produced by response.json(). JSON numbers are modelled as
integers, which covers every value the specification exercises. Objects are
association lists of field name and value. -/
inductive JVal where
  | null
  | bool (b : Bool)
  | num (n : Int)
  | str (s : String)
  | arr (elems : List JVal)
  | obj (fields : List (String × JVal))

/-- Python exception kinds the embedded code can raise. lmsConnectionError is
the class LMSConnectionError defined at the top of server.py; it subclasses
Exception directly. requestsConnectionError and requestsHTTPError stand for
requests.exceptions.ConnectionError and requests.exceptions.HTTPError; neither
is a subclass of LMSConnectionError. -/
inductive PyErr where
  | lmsConnectionError
  | requestsConnectionError
  | requestsHTTPError
  | jsonDecodeError
  | keyError (k : String)
  | typeError
  | attributeError
  deriving DecidableEq

/-- Python subscript json["result"] on a JSON value: KeyError when the key is
missing from an object, TypeError when the value is not an object (a string
subscript applied to a list or a scalar). -/
def JVal.getKey : JVal → String → Except PyErr JVal
  | .obj fields, k =>
    match fields.lookup k with
    | some v => .ok v
    | none => .error (.keyError k)
  | _, _ => .error .typeError

/-- Python truthiness bool(v) of a JSON value. -/
def JVal.truthy : JVal → Bool
  | .null => false
  | .bool b => b
  | .num n => n != 0
  | .str s => !s.isEmpty
  | .arr xs => !xs.isEmpty
  | .obj fs => !fs.isEmpty

/-- A command argument to _request: either a whitespace-separated string or an
already tokenized list of strings. -/
inductive Cmd where
  | str (s : String)
  | list (ts : List String)

/-- Python str.split() with no argument: split on whitespace runs, dropping
empty pieces. -/
def pysplit (s : String) : List String :=
  (s.split Char.isWhitespace).filter (fun t => !t.isEmpty)

/-- The tokenization at the top of _request: command.split() inside a
try/except AttributeError — a string is split on whitespace, a list has no
split method, raising AttributeError which is caught and leaves it unchanged. -/
def Cmd.tokens : Cmd → List String
  | .str s => pysplit s
  | .list ts => ts

/-- Modelled from the spec: the Player collaborator handle of the factory
contract (src/LMSTools/player.py is not under src/); a handle exposes at least
name and ref. -/
structure LMSPlayer where
  name : String
  ref : String

/-- The state of one LMSServer instance, as set up by __init__: the players
attribute does not exist until get_players first assigns it, modelled with
Option. -/
structure LMSServer where
  host : String
  port : Nat
  _version : Option JVal
  id : Nat
  web : String
  url : String
  players : Option (List LMSPlayer)

/-- LMSServer.__init__(host, port): stores the parameters, sets _version to
None and id to 1, and derives the web and JSON-RPC URLs by string formatting.
A pure function of host and port: no HTTP exchange is consumed, hence no
network activity at construction time. -/
def LMSServer.init (host : String) (port : Nat) : LMSServer :=
  { host := host
    port := port
    _version := none
    id := 1
    web := "http://" ++ host ++ ":" ++ toString port ++ "/"
    url := "http://" ++ host ++ ":" ++ toString port ++ "/jsonrpc.js"
    players := none }

/-- The outcome of one requests.post exchange as observed by the caller:
either the post raises requests.exceptions.ConnectionError, or a response
arrives with an HTTP status and a body; the body is recorded as the result of
attempting to parse it as JSON (none when response.json() would raise a decode
error). -/
inductive HttpOutcome where
  | connFailure
  | response (status : Nat) (body : Option JVal)

/-- The JSON-RPC payload _request posts: id read from the instance counter,
method "slim.request", params built from the player and the tokenized
command. -/
structure Payload where
  id : Nat
  method : String
  playerRef : String
  commandTokens : List String

/-- The payload built by _request just before the post. -/
def requestPayload (s : LMSServer) (command : Cmd) (player : String) : Payload :=
  { id := s.id
    method := "slim.request"
    playerRef := player
    commandTokens := command.tokens }

/-- response.raise_for_status() raises requests.exceptions.HTTPError exactly
for client-error and server-error statuses, 400 to 599. -/
def errorStatus (status : Nat) : Bool :=
  400 ≤ status && status < 600

/-- A 2xx status, the sense of success used by the specification. -/
def is2xx (status : Nat) : Bool :=
  200 ≤ status && status < 300

/-- The body of LMSServer._request(self, command, player) after argument
binding: posts the payload (the exchange's outcome is the out argument), calls
response.raise_for_status(), increments self.id, then returns
response.json()["result"]. The increment sits after raise_for_status, so a
connection failure or a 4xx/5xx response leaves the counter unchanged. -/
def _request (s : LMSServer) (command : Cmd) (player : String)
    (out : HttpOutcome) : Except PyErr JVal × LMSServer :=
  match out with
  | .connFailure => (.error .requestsConnectionError, s)
  | .response status body =>
    if errorStatus status then (.error .requestsHTTPError, s)
    else
      let s' := { s with id := s.id + 1 }
      match body with
      | none => (.error .jsonDecodeError, s')
      | some j =>
        match j.getKey "result" with
        | .ok v => (.ok v, s')
        | .error e => (.error e, s')

/-- The shapes of the calls server.py makes to _request: one positional
argument, a keyword argument named params, or keyword arguments player and
params. -/
inductive ReqCall where
  | posCommand (c : Cmd)
  | kwParams (c : Cmd)
  | kwPlayerParams (player : String) (c : Cmd)

/-- Python call binding against the signature _request(self, command,
player): a single positional argument binds command, with player defaulting
to "-"; a keyword argument named params matches no parameter of _request, so
the call raises TypeError before any network activity. -/
def callRequest (s : LMSServer) (call : ReqCall) (out : HttpOutcome) :
    Except PyErr JVal × LMSServer :=
  match call with
  | .posCommand c => _request s c "-" out
  | .kwParams _ => (.error .typeError, s)
  | .kwPlayerParams _ _ => (.error .typeError, s)

/-- LMSServer.get_player_count: self._request('player count ?')['_count'] —
the one call site that passes the command positionally, so the call binds. -/
def get_player_count (s : LMSServer) (out : HttpOutcome) :
    Except PyErr JVal × LMSServer :=
  match callRequest s (.posCommand (.str "player count ?")) out with
  | (.ok r, s') =>
    match r.getKey "_count" with
    | .ok v => (.ok v, s')
    | .error e => (.error e, s')
  | (.error e, s') => (.error e, s')

/-- LMSServer.get_players: assigns self.players = [], asks get_player_count,
then appends LMSPlayer.from_index(i, self) for i in range(count) and keeps the
list in self.players. The player factory is the external collaborator
parameter; range() over a non-integer raises TypeError. -/
def get_players (factory : Nat → LMSServer → LMSPlayer) (s : LMSServer)
    (out : HttpOutcome) : Except PyErr (List LMSPlayer) × LMSServer :=
  let s0 := { s with players := some ([] : List LMSPlayer) }
  match get_player_count s0 out with
  | (.ok (.num n), s1) =>
    let ps := (List.range n.toNat).map (fun i => factory i s1)
    (.ok ps, { s1 with players := some ps })
  | (.ok _, s1) => (.error .typeError, s1)
  | (.error e, s1) => (.error e, s1)

/-- Python str.split(",") on the character list: cut at every comma; the empty
string yields one empty piece. -/
def splitCommaChars : List Char → List (List Char)
  | [] => [[]]
  | c :: rest =>
    match splitCommaChars rest with
    | [] => [[]]
    | g :: gs => if c = ',' then [] :: g :: gs else (c :: g) :: gs

/-- Python str.split(","). -/
def splitComma (s : String) : List String :=
  (splitCommaChars s.data).map (fun cs => String.mk cs)

/-- One entry of the comprehension in get_sync_groups:
x.get("sync_members", "").split(",") — the default is the empty string, which
splits to a single empty-string element; a non-dict entry or a non-string
value raises AttributeError on .get or .split. -/
def memberSplit (x : JVal) : Except PyErr (List String) :=
  match x with
  | .obj fs =>
    match fs.lookup "sync_members" with
    | none => .ok (splitComma "")
    | some (.str s) => .ok (splitComma s)
    | some _ => .error .attributeError
  | _ => .error .attributeError

/-- The comprehension of get_sync_groups over
groups.get("syncgroups_loop", dict()): a missing syncgroups_loop iterates the
empty default dict; a present non-sequence value is modelled as TypeError. -/
def syncgroupsShape (groups : JVal) : Except PyErr (List (List String)) :=
  match groups with
  | .obj fs =>
    match fs.lookup "syncgroups_loop" with
    | none => .ok []
    | some (.arr xs) => xs.mapM memberSplit
    | some _ => .error .typeError
  | _ => .error .attributeError

/-- LMSServer.get_sync_groups: the request is issued as
self._request(params="syncgroups ?"), a keyword argument the signature
_request(self, command, player) does not accept, so every call raises
TypeError and the comprehension after the call is dead code. -/
def get_sync_groups (s : LMSServer) (out : HttpOutcome) :
    Except PyErr (List (List String)) × LMSServer :=
  match callRequest s (.kwParams (.str "syncgroups ?")) out with
  | (.ok groups, s') =>
    match syncgroupsShape groups with
    | .ok gs => (.ok gs, s')
    | .error e => (.error e, s')
  | (.error e, s') => (.error e, s')

/-- One player entry of the sync status report. -/
structure SyncEntry where
  name : String
  ref : String
  sync_index : Int

/-- The report assembled by show_players_sync_status. -/
structure SyncStatusReport where
  group_count : Nat
  player_count : Nat
  players : List SyncEntry

/-- index = [i for i, g in enumerate(groups) if player.ref in g], then
index[0] if index is nonempty, else -1. -/
def syncIndexOf (groups : List (List String)) (ref : String) : Int :=
  match (groups.enum.filter (fun ig => ig.2.contains ref)).map (fun ig => ig.1) with
  | [] => -1
  | i :: _ => (i : Int)

/-- LMSServer.show_players_sync_status: composes get_players and
get_sync_groups and builds the report; an exception from either call
propagates. -/
def show_players_sync_status (factory : Nat → LMSServer → LMSPlayer)
    (s : LMSServer) (countOut groupsOut : HttpOutcome) :
    Except PyErr SyncStatusReport × LMSServer :=
  match get_players factory s countOut with
  | (.error e, s1) => (.error e, s1)
  | (.ok players, s1) =>
    match get_sync_groups s1 groupsOut with
    | (.error e, s2) => (.error e, s2)
    | (.ok groups, s2) =>
      let entries := players.map (fun p =>
        { name := p.name, ref := p.ref,
          sync_index := syncIndexOf groups p.ref : SyncEntry })
      (.ok { group_count := groups.length
             player_count := players.length
             players := entries }, s2)

/-- LMSServer.ping: try self._request(params="ping"); return True; except
LMSConnectionError: return False. The params= keyword raises TypeError, and
the except clause matches only the class LMSConnectionError, not the requests
exceptions. -/
def ping (s : LMSServer) (out : HttpOutcome) : Except PyErr Bool × LMSServer :=
  match callRequest s (.kwParams (.str "ping")) out with
  | (.ok _, s') => (.ok true, s')
  | (.error e, s') =>
    if e = PyErr.lmsConnectionError then (.ok false, s') else (.error e, s')

/-- The version property: returns self._version when already set, otherwise
assigns it from self._request(params="version ?")["_version"]; the params=
keyword raises TypeError before any network activity, so the assignment never
runs. -/
def version (s : LMSServer) (out : HttpOutcome) : Except PyErr JVal × LMSServer :=
  match s._version with
  | some v => (.ok v, s)
  | none =>
    match callRequest s (.kwParams (.str "version ?")) out with
    | (.ok r, s') =>
      match r.getKey "_version" with
      | .ok v => (.ok v, { s' with _version := some v })
      | .error e => (.error e, s')
    | (.error e, s') => (.error e, s')

/-- LMSServer.rescan: probes self._request("rescan ?")["_rescan"] with a bare
except around it that swallows every exception and leaves is_scanning True;
when not scanning the mode selects a scan command, each sent with a params=
keyword call (TypeError); an unrecognized mode falls through and returns
None; when scanning, returns the empty string. probeOut is the probe
exchange, scanOut the scan-command exchange. -/
def rescan (s : LMSServer) (mode : String) (probeOut scanOut : HttpOutcome) :
    Except PyErr JVal × LMSServer :=
  let probe := callRequest s (.posCommand (.str "rescan ?")) probeOut
  let isScanning : Bool :=
    match (probe.1).bind (fun r => r.getKey "_rescan") with
    | .ok v => v.truthy
    | .error _ => true
  let s1 := probe.2
  if isScanning then (.ok (.str ""), s1)
  else
    match mode with
    | "fast" => callRequest s1 (.kwParams (.str "rescan")) scanOut
    | "full" => callRequest s1 (.kwParams (.str "wipecache")) scanOut
    | "playlists" => callRequest s1 (.kwParams (.str "rescan playlists")) scanOut
    | _ => (.ok .null, s1)

/-- The request ids carried by the payloads of successive _request calls on
one connection, one HTTP outcome consumed per call. -/
def dispatchIds (command : Cmd) (player : String) :
    LMSServer → List HttpOutcome → List Nat
  | _, [] => []
  | s, o :: os =>
    (requestPayload s command player).id ::
      dispatchIds command player (_request s command player o).2 os

/-- An HTTP exchange after which _request reaches the id increment: a response
whose status is not a 4xx or 5xx error (the body may still fail to parse
afterwards). -/
def reachesIncrement : HttpOutcome → Bool
  | .connFailure => false
  | .response status _ => !errorStatus status

/-- Stated from the spec's words: the ConnectionError kind of the error
taxonomy — HTTP transport failure, error HTTP status, or an
unparseable/incomplete JSON-RPC response. The Python class LMSConnectionError
is a distinct exception that nothing in server.py ever raises. -/
def isConnectionErrorKind : PyErr → Bool
  | .requestsConnectionError => true
  | .requestsHTTPError => true
  | .jsonDecodeError => true
  | .keyError _ => true
  | _ => false

/-- The stub response of the player-count exchange: HTTP 200 with a body whose
result._count field is C. -/
def countResponse (C : Nat) : HttpOutcome :=
  .response 200 (some (.obj [("result", .obj [("_count", .num (C : Int))])]))

/-- The characters urllib.parse.quote never encodes, with its default safe
parameter: letters, digits, underscore, dot, hyphen, tilde, and slash. -/
def safeByte (b : Nat) : Bool :=
  (65 ≤ b && b ≤ 90) || (97 ≤ b && b ≤ 122) || (48 ≤ b && b ≤ 57) ||
    b == 95 || b == 46 || b == 45 || b == 126 || b == 47

/-- The uppercase hexadecimal digit character, as a byte, for n < 16, as
produced by percent-encoding. -/
def hexDigit (n : Nat) : Nat :=
  if n < 10 then 48 + n else 55 + n

/-- The value of one hexadecimal digit character, accepting both cases as
percent-decoding does; none for a non-hex character. -/
def hexVal (c : Nat) : Option Nat :=
  if 48 ≤ c && c ≤ 57 then some (c - 48)
  else if 65 ≤ c && c ≤ 70 then some (c - 55)
  else if 97 ≤ c && c ≤ 102 then some (c - 87)
  else none

/-- LMSUtils.quote, i.e. urllib.parse.quote, at the byte level over the UTF-8
encoding of the text: safe bytes pass through, every other byte becomes a
percent sign followed by two uppercase hex digits. -/
def quote : List Nat → List Nat
  | [] => []
  | b :: rest =>
    (if safeByte b then [b] else [37, hexDigit (b / 16), hexDigit (b % 16)])
      ++ quote rest

/-- LMSUtils.unquote, i.e. urllib.parse.unquote, at the byte level: a percent
sign followed by two hex digits decodes to that byte; a percent sign not
followed by two hex digits is kept verbatim and scanning continues after it. -/
def unquote : List Nat → List Nat
  | [] => []
  | [b] => [b]
  | [b, a] => b :: unquote [a]
  | b :: a :: c :: rest =>
    if b = 37 then
      match hexVal a, hexVal c with
      | some ha, some hc => (16 * ha + hc) :: unquote rest
      | _, _ => 37 :: unquote (a :: c :: rest)
    else b :: unquote (a :: c :: rest)

/-- C9: for every host and port, construction derives the JSON-RPC url and
the base web url exactly as the claim states; LMSServer.init is a pure
function of host and port that consumes no HttpOutcome, so no network
activity occurs at construction time. -/
theorem init_sets_urls (host : String) (port : Nat) :
    (LMSServer.init host port).url =
      "http://" ++ host ++ ":" ++ toString port ++ "/jsonrpc.js"
    ∧ (LMSServer.init host port).web =
      "http://" ++ host ++ ":" ++ toString port ++ "/" :=
  ⟨rfl, rfl⟩

/-- C8: with the player-count dispatch answering _count = C, get_player_count
returns C, and get_players returns the C handles built by the factory at
indices 0 .. C-1 in increasing order on the post-request connection state; the
same list replaces the players list cached on the connection. -/
theorem get_players_builds_range (C : Nat)
    (factory : Nat → LMSServer → LMSPlayer) (s : LMSServer) :
    (get_player_count s (countResponse C)).1 = Except.ok (JVal.num (C : Int))
    ∧ (get_players factory s (countResponse C)).1 =
        Except.ok ((List.range C).map (fun i =>
          factory i { s with players := some [], id := s.id + 1 }))
    ∧ (get_players factory s (countResponse C)).2.players =
        some ((List.range C).map (fun i =>
          factory i { s with players := some [], id := s.id + 1 })) := by
  refine ⟨?_, ?_, ?_⟩ <;>
    simp [get_players, get_player_count, callRequest, _request, countResponse,
      errorStatus, JVal.getKey]

/-- Helper: response.json()["result"] extraction only fails with the KeyError
of the requested key or with TypeError. -/
theorem getKey_error_cases (j : JVal) (k : String) (e : PyErr)
    (h : j.getKey k = .error e) : e = .keyError k ∨ e = .typeError := by
  cases j with
  | obj fields =>
    cases hl : fields.lookup k with
    | some v => simp [JVal.getKey, hl] at h
    | none =>
      simp [JVal.getKey, hl] at h
      exact Or.inl h.symm
  | null => exact Or.inr (by simpa [JVal.getKey] using h.symm)
  | bool b => exact Or.inr (by simpa [JVal.getKey] using h.symm)
  | num n => exact Or.inr (by simpa [JVal.getKey] using h.symm)
  | str s => exact Or.inr (by simpa [JVal.getKey] using h.symm)
  | arr xs => exact Or.inr (by simpa [JVal.getKey] using h.symm)

/-- C1 (code bug): ping raises TypeError on every exchange outcome, because
self._request(params="ping") passes a keyword argument the signature
_request(self, command, player) does not accept; moreover _request never
raises LMSConnectionError, the only exception the except clause catches, so
even a repaired call could not turn a transport failure into False. -/
theorem ping_always_type_error (s : LMSServer) (out : HttpOutcome) :
    (ping s out).1 = .error .typeError ∧ (ping s out).2 = s
    ∧ ∀ (c : Cmd) (p : String),
        (_request s c p out).1 ≠ Except.error PyErr.lmsConnectionError := by
  refine ⟨rfl, rfl, ?_⟩
  intro c p
  cases out with
  | connFailure => simp [_request]
  | response status body =>
    cases he : errorStatus status with
    | true => simp [_request, he]
    | false =>
      cases body with
      | none => simp [_request, he]
      | some j =>
        cases hk : j.getKey "result" with
        | ok v => simp [_request, he, hk]
        | error e =>
          rcases getKey_error_cases j "result" e hk with h1 | h1 <;>
            simp [_request, he, hk, h1]

/-- C4 (code bug): get_sync_groups raises TypeError on every call — the
request is issued as self._request(params="syncgroups ?") against the
signature _request(self, command, player) — so the documented splitting never
runs; on the claim's example response it produces the error, not the groups.
The comma-splitting comprehension itself, applied directly to that response
value, does yield the claimed groups, including the one-element [""] group for
an empty or absent sync_members. -/
theorem get_sync_groups_always_type_error :
    (∀ (s : LMSServer) (out : HttpOutcome),
        get_sync_groups s out = (.error .typeError, s))
    ∧ syncgroupsShape (.obj [("syncgroups_loop",
        .arr [.obj [("sync_members", .str "AA:AA,BB:BB")]])])
        = .ok [["AA:AA", "BB:BB"]]
    ∧ syncgroupsShape (.obj [("syncgroups_loop",
        .arr [.obj [("sync_members", .str "")], .obj []])])
        = .ok [[""], [""]] :=
  ⟨fun s out => rfl, rfl, rfl⟩

/-- C5 (code bug): show_players_sync_status never builds the report: after a
successful player enumeration (two players here) it calls get_sync_groups,
whose params= keyword call raises TypeError, which propagates; the claimed
report with syncIndex -1 entries is never returned. -/
theorem show_players_sync_status_always_type_error
    (groupsOut : HttpOutcome) (factory : Nat → LMSServer → LMSPlayer) :
    (show_players_sync_status factory (LMSServer.init "localhost" 9000)
        (countResponse 2) groupsOut).1 = .error .typeError := by
  simp [show_players_sync_status, get_players, get_player_count, callRequest,
    _request, countResponse, errorStatus, JVal.getKey, get_sync_groups]

/-- C6 (code bug): reading the version property raises TypeError before any
network exchange — the dispatch is self._request(params="version ?") — and
leaves the connection unchanged, so a first read never succeeds, nothing is
ever cached, and a second read raises identically. -/
theorem version_always_type_error (h : String) (p : Nat)
    (out out' : HttpOutcome) :
    version (LMSServer.init h p) out = (.error .typeError, LMSServer.init h p)
    ∧ (version (version (LMSServer.init h p) out).2 out').1
        = .error .typeError :=
  ⟨rfl, rfl⟩

/-- C7 (code bug): with the probe reporting _rescan = 0 (falsy), rescan "full"
raises TypeError from the params= keyword call instead of sending
"wipecache"; with a truthy probe, or with the probe itself failing (the bare
except swallows the error and keeps is_scanning True), it returns "" as the
claim states. -/
theorem rescan_full_type_error (scanOut : HttpOutcome) :
    (rescan (LMSServer.init "localhost" 9000) "full"
        (.response 200 (some (.obj [("result", .obj [("_rescan", .num 0)])])))
        scanOut).1 = .error .typeError
    ∧ (rescan (LMSServer.init "localhost" 9000) "full"
        (.response 200 (some (.obj [("result", .obj [("_rescan", .num 1)])])))
        scanOut).1 = .ok (.str "")
    ∧ (rescan (LMSServer.init "localhost" 9000) "full" .connFailure
        scanOut).1 = .ok (.str "") :=
  ⟨rfl, rfl, rfl⟩

/-- C2 counterexample: with a first exchange answering HTTP 500 and a second
answering 200, the two posted request ids are [1, 1] rather than [1, 2]: the
increment sits after raise_for_status, so a 4xx/5xx response leaves the
counter unchanged and the next dispatch reuses the id. -/
theorem dispatch_ids_stall_on_error_status :
    dispatchIds (.str "ping") "-" (LMSServer.init "localhost" 9000)
      [HttpOutcome.response 500 none,
       HttpOutcome.response 200 (some (.obj [("result", .null)]))] = [1, 1]
    ∧ dispatchIds (.str "ping") "-" (LMSServer.init "localhost" 9000)
      [HttpOutcome.response 500 none,
       HttpOutcome.response 200 (some (.obj [("result", .null)]))]
      ≠ List.range' 1 2 :=
  ⟨rfl, by decide⟩

/-- Helper: when every exchange in the sequence reaches the increment, the
posted ids count up from the current counter. -/
theorem dispatchIds_counts_up (c : Cmd) (player : String) :
    ∀ (outs : List HttpOutcome) (s : LMSServer),
      (∀ o ∈ outs, reachesIncrement o = true) →
      dispatchIds c player s outs = List.range' s.id outs.length := by
  intro outs
  induction outs with
  | nil => intro s _; rfl
  | cons o os ih =>
    intro s h
    have ho : reachesIncrement o = true := h o (by simp)
    have hos : ∀ o' ∈ os, reachesIncrement o' = true :=
      fun o' hm => h o' (by simp [hm])
    have hid : ((_request s c player o).2).id = s.id + 1 := by
      cases o with
      | connFailure => simp [reachesIncrement] at ho
      | response status body =>
        have he : errorStatus status = false := by
          simpa [reachesIncrement] using ho
        cases body with
        | none => simp [_request, he]
        | some j =>
          cases hk : j.getKey "result" with
          | ok v => simp [_request, he, hk]
          | error e => simp [_request, he, hk]
    calc dispatchIds c player s (o :: os)
        = s.id :: dispatchIds c player (_request s c player o).2 os := rfl
      _ = s.id :: List.range' ((_request s c player o).2).id os.length :=
          by rw [ih _ hos]
      _ = s.id :: List.range' (s.id + 1) os.length := by rw [hid]
      _ = List.range' s.id (os.length + 1) := (List.range'_succ s.id os.length 1).symm
      _ = List.range' s.id (o :: os).length := by simp

/-- C2 amended: a dispatch posts the current counter value, and the counter —
starting at 1 — is incremented by one exactly when the exchange yields a
response whose status is outside 400..599 (even when JSON decoding or result
extraction fails afterwards); it is unchanged on connection failure or a
4xx/5xx status. Hence N dispatches post ids 1, 2, ..., N exactly when every
exchange reaches the increment. -/
theorem dispatch_ids_increment (c : Cmd) (player : String) :
    (∀ (s : LMSServer) (out : HttpOutcome),
        ((_request s c player out).2).id =
          if reachesIncrement out then s.id + 1 else s.id)
    ∧ (∀ (host : String) (port : Nat) (outs : List HttpOutcome),
        (∀ o ∈ outs, reachesIncrement o = true) →
        dispatchIds c player (LMSServer.init host port) outs =
          List.range' 1 outs.length) := by
  constructor
  · intro s out
    cases out with
    | connFailure => rfl
    | response status body =>
      cases he : errorStatus status with
      | true => simp [_request, he, reachesIncrement]
      | false =>
        cases body with
        | none => simp [_request, he, reachesIncrement]
        | some j =>
          cases hk : j.getKey "result" with
          | ok v => simp [_request, he, hk, reachesIncrement]
          | error e => simp [_request, he, hk, reachesIncrement]
  · intro host port outs h
    exact dispatchIds_counts_up c player outs (LMSServer.init host port) h

/-- C2 amended, witness at two increment-reaching exchanges. -/
theorem dispatch_ids_increment_witness :
    (∀ o ∈ [HttpOutcome.response 200 none,
            HttpOutcome.response 204 (some JVal.null)],
        reachesIncrement o = true)
    ∧ dispatchIds (.str "ping") "-" (LMSServer.init "localhost" 9000)
        [HttpOutcome.response 200 none,
         HttpOutcome.response 204 (some JVal.null)] = List.range' 1 2 :=
  ⟨by decide,
   (dispatch_ids_increment (.str "ping") "-").2 "localhost" 9000
     [HttpOutcome.response 200 none,
      HttpOutcome.response 204 (some JVal.null)] (by decide)⟩

/-- C3 counterexample: a 304 response is not a success status, yet dispatch
parses the body and returns the result value instead of failing:
raise_for_status only raises for statuses 400..599, so "non-success" does not
coincide with the statuses on which dispatch fails. -/
theorem dispatch_ok_on_304 :
    is2xx 304 = false
    ∧ (_request (LMSServer.init "localhost" 9000) (.str "ping") "-"
        (.response 304 (some (.obj [("result", .num 5)])))).1 = .ok (.num 5) :=
  ⟨rfl, rfl⟩

/-- C3 amended: when the status is a client or server error (400..599),
dispatch fails with HTTPError — in the spec's ConnectionError kind — for
every body, so the body is never inspected; for any other status, an
unparseable body fails with a JSON decode error, an object body lacking
"result" fails with that KeyError (both in the ConnectionError kind), and an
object body carrying "result" returns its value. -/
theorem dispatch_error_classification (s : LMSServer) (c : Cmd) (p : String)
    (status : Nat) :
    (errorStatus status = true → ∀ (body : Option JVal),
        (_request s c p (.response status body)).1
            = .error .requestsHTTPError
        ∧ isConnectionErrorKind .requestsHTTPError = true)
    ∧ (errorStatus status = false →
        ((_request s c p (.response status none)).1 = .error .jsonDecodeError
          ∧ isConnectionErrorKind .jsonDecodeError = true)
        ∧ (∀ (fields : List (String × JVal)), fields.lookup "result" = none →
            (_request s c p (.response status (some (.obj fields)))).1
              = .error (.keyError "result")
            ∧ isConnectionErrorKind (.keyError "result") = true)
        ∧ (∀ (fields : List (String × JVal)) (v : JVal),
            fields.lookup "result" = some v →
            (_request s c p (.response status (some (.obj fields)))).1
              = .ok v)) := by
  constructor
  · intro he body
    exact ⟨by simp [_request, he], rfl⟩
  · intro he
    refine ⟨⟨by simp [_request, he], rfl⟩, ?_, ?_⟩
    · intro fields hl
      exact ⟨by simp [_request, he, JVal.getKey, hl], rfl⟩
    · intro fields v hl
      simp [_request, he, JVal.getKey, hl]

/-- C3 amended, witness: a 500 status fails with HTTPError and a 200 status
with a result-carrying body returns the result. -/
theorem dispatch_error_classification_witness :
    errorStatus 500 = true
    ∧ (_request (LMSServer.init "localhost" 9000) (.str "ping") "-"
        (.response 500 none)).1 = .error .requestsHTTPError
    ∧ errorStatus 200 = false
    ∧ (_request (LMSServer.init "localhost" 9000) (.str "ping") "-"
        (.response 200 (some (.obj [("result", .num 3)])))).1 = .ok (.num 3) :=
  ⟨rfl,
   ((dispatch_error_classification (LMSServer.init "localhost" 9000)
      (.str "ping") "-" 500).1 rfl none).1,
   rfl,
   ((dispatch_error_classification (LMSServer.init "localhost" 9000)
      (.str "ping") "-" 200).2 rfl).2.2 [("result", .num 3)] (.num 3) rfl⟩

/-- Helper: the hex digits emitted by quote decode back to their value. -/
theorem hexVal_hexDigit (n : Nat) (h : n < 16) :
    hexVal (hexDigit n) = some n := by
  interval_cases n <;> rfl

/-- Helper: the percent sign is not a safe byte. -/
theorem safeByte_ne_percent (b : Nat) (h : safeByte b = true) : b ≠ 37 := by
  intro hb
  subst hb
  exact absurd h (by decide)

/-- Helper: unquote passes a non-percent byte through and continues. -/
theorem unquote_cons_of_ne (b : Nat) (l : List Nat) (hb : ¬ b = 37) :
    unquote (b :: l) = b :: unquote l := by
  match l with
  | [] => rfl
  | [a] => rfl
  | a :: c :: rest => simp [unquote, hb]

/-- C10: percent-decoding is a left inverse of percent-encoding — for every
byte string (the UTF-8 encoding of the text), unquote (quote bs) = bs. -/
theorem unquote_quote (bs : List Nat) (h : ∀ b ∈ bs, b < 256) :
    unquote (quote bs) = bs := by
  induction bs with
  | nil => rfl
  | cons b rest ih =>
    have hb : b < 256 := h b (by simp)
    have hrest : ∀ x ∈ rest, x < 256 := fun x hx => h x (by simp [hx])
    cases hs : safeByte b with
    | true =>
      have hbp : ¬ b = 37 := safeByte_ne_percent b hs
      calc unquote (quote (b :: rest))
          = unquote (b :: quote rest) := by simp [quote, hs]
        _ = b :: unquote (quote rest) := unquote_cons_of_ne b _ hbp
        _ = b :: rest := by rw [ih hrest]
    | false =>
      have h1 : hexVal (hexDigit (b / 16)) = some (b / 16) :=
        hexVal_hexDigit _ (by omega)
      have h2 : hexVal (hexDigit (b % 16)) = some (b % 16) :=
        hexVal_hexDigit _ (by omega)
      have hq : quote (b :: rest)
          = 37 :: hexDigit (b / 16) :: hexDigit (b % 16) :: quote rest := by
        simp [quote, hs]
      rw [hq]
      simp only [unquote, h1, h2, eq_self_iff_true, if_true]
      rw [ih hrest]
      congr 1
      omega

/-- C10, witness: a concrete byte string mixing safe bytes, the percent sign,
a slash and a non-ASCII byte round-trips. -/
theorem unquote_quote_witness :
    (∀ b ∈ [76, 77, 83, 37, 47, 255, 0, 32], b < 256)
    ∧ unquote (quote [76, 77, 83, 37, 47, 255, 0, 32])
        = [76, 77, 83, 37, 47, 255, 0, 32] :=
  ⟨by decide, unquote_quote [76, 77, 83, 37, 47, 255, 0, 32] (by decide)⟩
